import Mathlib

/-!
Verification development for the radiosonde cross-section notebook.

The notebook defines two functions:

* `vertical_interpolate(vcoord_data, interp_var, interp_levels)` — resamples a
  sounding variable onto a standard pressure grid, assuming a log-linear
  relationship, clamping outside the observed range;
* `radisonde_cross_section(stns, data, start=1000, end=100, step=10)` — builds a
  2D (distance x pressure) cross-section grid from a list of stations.

We embed both over `ℝ` (idealizing float64 arithmetic as real arithmetic), with
the external numerical library calls modelled by their documented semantics:
`np.log` is `Real.log`, `np.interp` is one-dimensional piecewise-linear
interpolation with boundary clamping over an increasing abscissa list,
`pyproj`'s spherical `Geod.inv` is the great-circle distance (spherical law of
cosines), and `scipy.interpolate.griddata` — whose algorithm is
library-defined — is a parameter of the cross-section builder.
-/

noncomputable section

/-- The value of the line through points `p` and `q` at abscissa `x`
(the segment formula used by `np.interp` inside a bracketing interval). -/
def lin_interp (x : ℝ) (p q : ℝ × ℝ) : ℝ :=
  p.2 + (x - p.1) * (q.2 - p.2) / (q.1 - p.1)

/-- Model of `np.interp x xp fp` where `l` is the list of `(xp i, fp i)` pairs.
For an increasing abscissa sequence (the only case exercised by the notebook,
whose precondition is a sorted input), this is numpy's documented semantics:
values are clamped to `fp.head` below `xp.head` and to `fp.last` above
`xp.last`, and linearly interpolated on each bracketing segment. -/
def np_interp (x : ℝ) : List (ℝ × ℝ) → ℝ
  | [] => 0
  | [p] => p.2
  | p :: q :: rest =>
      if x ≤ p.1 then p.2
      else if x ≤ q.1 then lin_interp x p q
      else np_interp x (q :: rest)

/-- The two mask assignments at the end of `vertical_interpolate`:
`interp_data[mask_low] = interp_var[0]` (where `mask_low = interp_levels >
vcoord_data[0]`) followed by `interp_data[mask_high] = interp_var[-1]` (where
`mask_high = interp_levels < vcoord_data[-1]`).  Because the `mask_high`
assignment is executed second, it wins where both masks hold. -/
def apply_masks (vcoord_data interp_var : List ℝ) (lv raw : ℝ) : ℝ :=
  if lv < vcoord_data.getD (vcoord_data.length - 1) 0 then
    interp_var.getD (interp_var.length - 1) 0
  else if vcoord_data.getD 0 0 < lv then interp_var.getD 0 0
  else raw

/-- The value `vertical_interpolate` produces for one target level `lv`:
`np.interp` of `log lv` against the reversed (hence increasing) observed
log-pressures paired with the reversed variable samples, then the two mask
assignments.  (Reversing the query array and un-reversing the result, as the
source does, is the same as mapping over the queries in original order.) -/
def vi_point (vcoord_data interp_var : List ℝ) (lv : ℝ) : ℝ :=
  apply_masks vcoord_data interp_var lv
    (np_interp (Real.log lv) (((vcoord_data.map Real.log).zip interp_var).reverse))

/-- Model of the notebook's `vertical_interpolate`.  `np.interp` raises a
`ValueError` when its sample-point array is empty or when `xp` and `fp` have
different lengths; we model the exception as `none`.  Otherwise the result is
the per-level interpolated-and-masked value, in target-grid order. -/
def vertical_interpolate (vcoord_data interp_var interp_levels : List ℝ) :
    Option (List ℝ) :=
  if vcoord_data.length = 0 ∨ vcoord_data.length ≠ interp_var.length then none
  else some (interp_levels.map (vi_point vcoord_data interp_var))

/-- The meteorological variables of one sounding profile.  (The notebook
discovers the dataframe's columns dynamically; the spec's data model fixes
this explicit set: pressure, temperature, dewpoint, u-wind, v-wind.) -/
inductive VarKey
  | pressure
  | temperature
  | dewpoint
  | u_wind
  | v_wind

/-- One radiosonde station's profile columns and scalar metadata
(`latitude[0]`, `longitude[0]`, `elevation[0]` of its dataframe). -/
structure Station where
  pressure : List ℝ
  temperature : List ℝ
  dewpoint : List ℝ
  u_wind : List ℝ
  v_wind : List ℝ
  latitude : ℝ
  longitude : ℝ
  elevation : ℝ

/-- Column access `data[station][key].values`. -/
def Station.col (st : Station) : VarKey → List ℝ
  | VarKey.pressure => st.pressure
  | VarKey.temperature => st.temperature
  | VarKey.dewpoint => st.dewpoint
  | VarKey.u_wind => st.u_wind
  | VarKey.v_wind => st.v_wind

/-- The preconditions under which every `vertical_interpolate` call made by
the cross-section builder succeeds (no `np.interp` exception): a nonempty
pressure column whose length every variable column matches. -/
def Station.valid (st : Station) : Prop :=
  st.pressure ≠ [] ∧ ∀ k : VarKey, (st.col k).length = st.pressure.length

/-- `np.arange(start, stop, -step)` for integer endpoints and a positive
integer step: the descending values `start, start - step, …` strictly greater
than `stop`. -/
def arangeDown (start stop : ℤ) (step : ℕ) : List ℤ :=
  if _hlt : stop < start ∧ 0 < step then
    start :: arangeDown (start - step) stop step
  else []
termination_by (start - stop).toNat
decreasing_by omega

/-- `np.linspace a b n`: `n` evenly spaced samples from `a` to `b`,
endpoint included. -/
def linspace (a b : ℝ) (n : ℕ) : List ℝ :=
  (List.range n).map fun i : ℕ => a + (i : ℝ) * (b - a) / ((n : ℝ) - 1)

/-- Radius in metres of the sphere selected by `Geod(ellps='sphere')`. -/
def earth_radius : ℝ := 6370997

/-- Degrees to radians. -/
def deg2rad (d : ℝ) : ℝ := d * (Real.pi / 180)

/-- Great-circle distance between two (longitude, latitude) points given in
degrees, on the spherical Earth model: the spherical law of cosines.  This
models the distance output of the external `pyproj.Geod(ellps='sphere').inv`
call (spec §4.2 step 2: great-circle distance on a spherical Earth). -/
def great_circle_dist (lon1 lat1 lon2 lat2 : ℝ) : ℝ :=
  earth_radius * Real.arccos (Real.sin (deg2rad lat1) * Real.sin (deg2rad lat2) +
    Real.cos (deg2rad lat1) * Real.cos (deg2rad lat2) *
      Real.cos (deg2rad lon2 - deg2rad lon1))

/-- `metpy.calc.height_to_pressure_std`: U.S. standard atmosphere pressure
(hPa) at height `h` metres, `p0 * (1 - gamma * h / t0) ^ (g / (Rd * gamma))`. -/
def height_to_pressure_std (h : ℝ) : ℝ :=
  1013.25 * (1 - 0.0065 * h / 288) ^ ((9.80665 : ℝ) / (287.047 * 0.0065))

/-- The dictionary returned by the cross-section builder. -/
structure CrossSection where
  grid_data : VarKey → List (List ℝ)
  obs_distance : List ℝ
  x_grid : List (List ℝ)
  p_grid : List (List ℝ)
  elevation : List ℝ

/-- The type of the external scattered-data interpolant
(`scipy.interpolate.griddata` with cubic method, whose algorithm is
library-defined): it maps the scattered `((distance, pressure), value)` cloud
and one `(distance, pressure)` query to a value. -/
def GridDataFun : Type := List ((ℝ × ℝ) × ℝ) → ℝ × ℝ → ℝ

/-- Station-by-station accumulation of per-station columns; the first failing
station aborts the computation (a raised exception in the source). -/
def optRows (f : Station → Option (List ℝ)) : List Station → Option (List (List ℝ))
  | [] => some []
  | st :: rest => (f st).bind fun r => (optRows f rest).map fun rs => r :: rs

/-- The loop body filling `tmp_grid[key][loc, :]`: for `key == 'pressure'` the
row is assigned `vertical_levels` directly; every other variable goes through
`vertical_interpolate` against the station's pressure column. -/
def station_column (levels : List ℝ) (k : VarKey) (st : Station) : Option (List ℝ) :=
  match k with
  | VarKey.pressure => some levels
  | k => vertical_interpolate st.pressure (st.col k) levels

/-- All stations' columns for one variable: `tmp_grid[key]`. -/
def tmp_rows (levels : List ℝ) (sts : List Station) (k : VarKey) :
    Option (List (List ℝ)) :=
  optRows (station_column levels k) sts

/-- The full `tmp_grid` dictionary, or `none` if any interpolation raised. -/
def tmp_grid (levels : List ℝ) (sts : List Station) :
    Option (VarKey → List (List ℝ)) :=
  (tmp_rows levels sts VarKey.pressure).bind fun tp =>
  (tmp_rows levels sts VarKey.temperature).bind fun tt =>
  (tmp_rows levels sts VarKey.dewpoint).bind fun td =>
  (tmp_rows levels sts VarKey.u_wind).bind fun tu =>
  (tmp_rows levels sts VarKey.v_wind).map fun tv =>
  fun k => match k with
    | VarKey.pressure => tp
    | VarKey.temperature => tt
    | VarKey.dewpoint => td
    | VarKey.u_wind => tu
    | VarKey.v_wind => tv

/-- The part of the builder after the interpolation loop: distances from the
first station via the spherical geodesic; `x = np.linspace(dist[0], dist[-1],
100)`; the meshgrids `xx[i][j] = x[i]` and `pp[i][j] = vertical_levels[j]`;
per variable the scattered cloud `((dist[i], vertical_levels[j]),
tmp_grid[key][i][j])` interpolated at every mesh point by the library
interpolant `gd`; and the standard-atmosphere terrain proxy. -/
def assemble_cross_section (gd : GridDataFun) (lon0 lat0 : ℝ)
    (vertical_levels : List ℝ) (sts : List Station)
    (tg : VarKey → List (List ℝ)) : CrossSection :=
  let dist := sts.map fun st => great_circle_dist lon0 lat0 st.longitude st.latitude
  let x := linspace (dist.getD 0 0) (dist.getD (dist.length - 1) 0) 100
  let cloud := fun k : VarKey =>
    ((dist.map fun d => vertical_levels.map fun p => (d, p)).flatten).zip (tg k).flatten
  CrossSection.mk
    (fun k => x.map fun xi => vertical_levels.map fun pj => gd (cloud k) (xi, pj))
    dist
    (x.map fun xi => vertical_levels.map fun _ => xi)
    (x.map fun _ => vertical_levels)
    (sts.map fun st => height_to_pressure_std st.elevation)

/-- Model of `radisonde_cross_section(stns, data, start, end, step)`:
`vertical_levels = np.arange(start, end - 1, -step)`; per-station columns via
`station_column`; then the 2D assembly.  An empty station list
(`data[stns[0]]` raises) and a zero step (`np.arange` raises) are modelled as
`none`, as is any failing vertical interpolation. -/
def radisonde_cross_section (gd : GridDataFun) (stns : List String)
    (data : String → Station) (start endv : ℤ) (step : ℕ) : Option CrossSection :=
  match stns with
  | [] => none
  | s0 :: rest =>
    if step = 0 then none
    else
      (tmp_grid ((arangeDown start (endv - 1) step).map (fun z : ℤ => (z : ℝ)))
          ((s0 :: rest).map data)).map
        (assemble_cross_section gd (data s0).longitude (data s0).latitude
          ((arangeDown start (endv - 1) step).map (fun z : ℤ => (z : ℝ)))
          ((s0 :: rest).map data))

/-- The variables of one `vertical_interpolate` call, for the frame property:
the three input arrays plus the locals created by the body. -/
structure VIState where
  vcoord_data : List ℝ
  interp_var : List ℝ
  interp_levels : List ℝ
  lnp : List ℝ
  lnp_intervals : List ℝ
  interp_data : List ℝ

/-- Statement-by-statement execution of `vertical_interpolate` over an
explicit state.  Each assignment updates exactly the variable the source
assigns — in particular the two mask writes update only `interp_data` — and
the final state is returned together with the result array. -/
def vertical_interpolate_run (s : VIState) : Option (VIState × List ℝ) :=
  -- lnp = np.log(vcoord_data)
  let s1 := VIState.mk s.vcoord_data s.interp_var s.interp_levels
    (s.vcoord_data.map Real.log) s.lnp_intervals s.interp_data
  -- lnp_intervals = np.log(interp_levels)
  let s2 := VIState.mk s1.vcoord_data s1.interp_var s1.interp_levels s1.lnp
    (s1.interp_levels.map Real.log) s1.interp_data
  -- interp_data = np.interp(lnp_intervals[::-1], lnp[::-1], interp_var[::-1])[::-1]
  if s2.vcoord_data.length = 0 ∨ s2.vcoord_data.length ≠ s2.interp_var.length then none
  else
    let s3 := VIState.mk s2.vcoord_data s2.interp_var s2.interp_levels s2.lnp s2.lnp_intervals
      ((s2.lnp_intervals.reverse.map fun x =>
        np_interp x ((s2.lnp.zip s2.interp_var).reverse)).reverse)
    -- interp_data[mask_low] = interp_var[0]
    let s4 := VIState.mk s3.vcoord_data s3.interp_var s3.interp_levels s3.lnp s3.lnp_intervals
      ((s3.interp_levels.zip s3.interp_data).map fun q =>
        if s3.vcoord_data.getD 0 0 < q.1 then s3.interp_var.getD 0 0 else q.2)
    -- interp_data[mask_high] = interp_var[-1]
    let s5 := VIState.mk s4.vcoord_data s4.interp_var s4.interp_levels s4.lnp s4.lnp_intervals
      ((s4.interp_levels.zip s4.interp_data).map fun q =>
        if q.1 < s4.vcoord_data.getD (s4.vcoord_data.length - 1) 0 then
          s4.interp_var.getD (s4.interp_var.length - 1) 0
        else q.2)
    some (s5, s5.interp_data)

/-- The cross-section builder's variables, for the frame property: the inputs
(the station list and the station-data mapping) and the locals the body
assigns. -/
structure RCState where
  stns : List String
  data : String → Station
  lats : List ℝ
  lons : List ℝ
  elev : List ℝ
  dist : List ℝ

/-- Execution of `radisonde_cross_section` over an explicit state: the loop
fills the fresh `lats`/`lons`/`elev` lists, `dist` is assigned from the
geodesic call, and the input fields `stns` and `data` are never assigned. -/
def radisonde_cross_section_run (gd : GridDataFun) (s : RCState)
    (start endv : ℤ) (step : ℕ) : Option (RCState × CrossSection) :=
  match s.stns with
  | [] => none
  | s0 :: rest =>
    if step = 0 then none
    else
      (tmp_grid ((arangeDown start (endv - 1) step).map (fun z : ℤ => (z : ℝ)))
          ((s0 :: rest).map s.data)).map fun tg =>
        (RCState.mk s.stns s.data (((s0 :: rest).map s.data).map Station.latitude)
          (((s0 :: rest).map s.data).map Station.longitude)
          (((s0 :: rest).map s.data).map Station.elevation)
          (((s0 :: rest).map s.data).map fun st =>
            great_circle_dist (s.data s0).longitude (s.data s0).latitude
              st.longitude st.latitude),
         assemble_cross_section gd (s.data s0).longitude (s.data s0).latitude
           ((arangeDown start (endv - 1) step).map (fun z : ℤ => (z : ℝ)))
           ((s0 :: rest).map s.data) tg)

/-- A one-station profile used in concrete instances: observed pressures
`[2, 1]` with zero-valued variable columns, at latitude 0, elevation 0 and
the given longitude. -/
def stnAt (lon : ℝ) : Station :=
  Station.mk [2, 1] [0, 0] [0, 0] [0, 0] [0, 0] 0 lon 0

/-- A station whose surface report is at 850 hPa — its observed pressure range
does not reach the 1000 hPa grid level. -/
def stShallow : Station :=
  Station.mk [850, 700] [0, 0] [0, 0] [0, 0] [0, 0] 0 0 0

/-- Three equatorial stations for a doubling-back cross-section path: station
A at longitude 0, B at longitude 90, C at longitude 45. -/
def dataABC : String → Station := fun s =>
  if s = "B" then stnAt 90 else if s = "C" then stnAt 45 else stnAt 0

/-- Unfolding equation for `np_interp` on a list with at least two nodes. -/
theorem np_interp_cons (x : ℝ) (p q : ℝ × ℝ) (rest : List (ℝ × ℝ)) :
    np_interp x (p :: q :: rest) =
      if x ≤ p.1 then p.2
      else if x ≤ q.1 then lin_interp x p q
      else np_interp x (q :: rest) := rfl

/-- Interpolating exactly at a node of a strictly increasing abscissa list
reproduces that node's ordinate. -/
theorem np_interp_at_node :
    ∀ (l : List (ℝ × ℝ)), l.Pairwise (fun p q => p.1 < q.1) →
      ∀ (k : ℕ) (hk : k < l.length), np_interp (l[k].1) l = l[k].2
  | [], _, k, hk => by simp at hk
  | [p], _, 0, _ => by simp [np_interp]
  | [p], _, k + 1, hk => by simp at hk
  | p :: q :: rest, _, 0, _ => by simp [np_interp]
  | p :: q :: rest, hl, 1, _ => by
      have hpq : p.1 < q.1 := (List.pairwise_cons.mp hl).1 q (by simp)
      have hne : q.1 - p.1 ≠ 0 := sub_ne_zero.mpr (ne_of_gt hpq)
      show np_interp ((p :: q :: rest)[1].1) (p :: q :: rest) = (p :: q :: rest)[1].2
      simp only [List.getElem_cons_succ, List.getElem_cons_zero]
      rw [np_interp_cons, if_neg (not_le.mpr hpq), if_pos le_rfl]
      unfold lin_interp
      field_simp
  | p :: q :: rest, hl, k + 2, hk => by
      have h1 := List.pairwise_cons.mp hl
      have h2 := List.pairwise_cons.mp h1.2
      have hk' : k + 1 < (q :: rest).length := by simpa using Nat.lt_of_succ_lt_succ hk
      have hkr : k < rest.length := by simpa using hk
      have hxq : q.1 < rest[k].1 := h2.1 _ (List.getElem_mem hkr)
      have hxp : p.1 < rest[k].1 := lt_trans (h1.1 q (by simp)) hxq
      show np_interp ((p :: q :: rest)[k + 2].1) (p :: q :: rest) = (p :: q :: rest)[k + 2].2
      have hidx : (p :: q :: rest)[k + 2] = rest[k] := by simp
      rw [hidx, np_interp_cons, if_neg (not_le.mpr hxp), if_neg (not_le.mpr hxq)]
      have hrec := np_interp_at_node (q :: rest) h1.2 (k + 1) hk'
      simpa using hrec

/-- Interpolating strictly inside the bracketing segment `k, k+1` of a strictly
increasing abscissa list yields the segment's linear-interpolation formula. -/
theorem np_interp_on_segment :
    ∀ (l : List (ℝ × ℝ)), l.Pairwise (fun p q => p.1 < q.1) →
      ∀ (x : ℝ) (k : ℕ) (hk : k + 1 < l.length),
        l[k].1 < x → x ≤ l[k + 1].1 → np_interp x l = lin_interp x l[k] l[k + 1]
  | [], _, x, k, hk, _, _ => by simp at hk
  | [p], _, x, k, hk, _, _ => by simp at hk
  | p :: q :: rest, _, x, 0, _, h1, h2 => by
      simp only [List.getElem_cons_zero, List.getElem_cons_succ] at h1 h2 ⊢
      rw [np_interp_cons, if_neg (not_le.mpr h1), if_pos h2]
  | p :: q :: rest, hl, x, k + 1, hk, h1, h2 => by
      have hp := List.pairwise_cons.mp hl
      have hq := List.pairwise_cons.mp hp.2
      have hk' : k + 1 < (q :: rest).length := by simpa using Nat.lt_of_succ_lt_succ hk
      have hq_le : q.1 ≤ (q :: rest)[k].1 := by
        cases k with
        | zero => simp
        | succ j =>
            have hj : j < rest.length := by
              have := Nat.lt_of_succ_lt hk'
              simpa using this
            simpa using le_of_lt (hq.1 _ (List.getElem_mem hj))
      have h1' : (q :: rest)[k].1 < x := by simpa using h1
      have h2' : x ≤ (q :: rest)[k + 1].1 := by simpa using h2
      have hqx : q.1 < x := lt_of_le_of_lt hq_le h1'
      have hpx : p.1 < x := lt_trans (hp.1 q (by simp)) hqx
      have hidx1 : (p :: q :: rest)[k + 1] = (q :: rest)[k] := by simp
      have hidx2 : (p :: q :: rest)[k + 2] = (q :: rest)[k + 1] := by simp
      rw [hidx1, hidx2, np_interp_cons, if_neg (not_le.mpr hpx), if_neg (not_le.mpr hqx)]
      exact np_interp_on_segment (q :: rest) hp.2 x k hk' h1' h2'

/-- In a strictly decreasing list, later entries are at most earlier ones. -/
theorem pairwise_getD_anti (v : List ℝ) (hdec : v.Pairwise (· > ·))
    (i j : ℕ) (hij : i ≤ j) (hj : j < v.length) : v.getD j 0 ≤ v.getD i 0 := by
  have hi : i < v.length := lt_of_le_of_lt hij hj
  rw [List.getD_eq_getElem v 0 hj, List.getD_eq_getElem v 0 hi]
  rcases Nat.lt_or_ge i j with h | h
  · exact le_of_lt ((List.pairwise_iff_getElem.mp hdec) i j hi hj h)
  · have : i = j := le_antisymm hij h
    subst this
    exact le_rfl

/-- The reversed `(log pressure, value)` node list handed to `np_interp` has
strictly increasing abscissas when the observed pressures are positive and
strictly decreasing. -/
theorem pts_pairwise (v a : List ℝ) (hpos : ∀ x ∈ v, 0 < x)
    (hdec : v.Pairwise (· > ·)) :
    (((v.map Real.log).zip a).reverse).Pairwise (fun p q => p.1 < q.1) := by
  rw [List.pairwise_reverse, List.pairwise_iff_getElem]
  intro i j hi hj hij
  have hjv : j < v.length := by
    have := hj
    simp only [List.length_zip, List.length_map, lt_inf_iff] at this
    exact this.1
  have hiv : i < v.length := lt_trans hij hjv
  have h1 : ((v.map Real.log).zip a)[i].1 = Real.log v[i] := by
    rw [List.getElem_zip]
    simp
  have h2 : ((v.map Real.log).zip a)[j].1 = Real.log v[j] := by
    rw [List.getElem_zip]
    simp
  rw [h1, h2]
  exact Real.log_lt_log (hpos _ (List.getElem_mem hjv))
    ((List.pairwise_iff_getElem.mp hdec) i j hiv hjv hij)

/-- Length of the reversed node list. -/
theorem pts_length (v a : List ℝ) (hlen : v.length = a.length) :
    (((v.map Real.log).zip a).reverse).length = v.length := by
  simp [hlen]

/-- Entry `k` of the reversed node list is node `v.length - 1 - k` of the
original profile. -/
theorem pts_getElem (v a : List ℝ) (hlen : v.length = a.length) (k : ℕ)
    (hk : k < (((v.map Real.log).zip a).reverse).length) :
    (((v.map Real.log).zip a).reverse)[k] =
      (Real.log (v.getD (v.length - 1 - k) 0), a.getD (v.length - 1 - k) 0) := by
  have hkv : k < v.length := by
    rw [pts_length v a hlen] at hk
    exact hk
  have hz : v.length - 1 - k < v.length := by omega
  have hza : v.length - 1 - k < a.length := by omega
  rw [List.getElem_reverse]
  rw [List.getElem_zip]
  have hlz : ((v.map Real.log).zip a).length = v.length := by simp [hlen]
  simp only [hlz]
  rw [List.getD_eq_getElem v 0 hz, List.getD_eq_getElem a 0 hza]
  simp

/-- Successful runs of `vertical_interpolate` have non-degenerate inputs and an
explicit pointwise output. -/
theorem vertical_interpolate_some (v a l out : List ℝ)
    (hout : vertical_interpolate v a l = some out) :
    v.length ≠ 0 ∧ v.length = a.length ∧ out = l.map (vi_point v a) := by
  by_cases h : v.length = 0 ∨ v.length ≠ a.length
  · rw [vertical_interpolate, if_pos h] at hout
    exact absurd hout (by simp)
  · push_neg at h
    rw [vertical_interpolate, if_neg (by push_neg; exact h)] at hout
    exact ⟨h.1, h.2, (Option.some_injective _ hout).symm⟩

/-- C1: for a strictly monotonically decreasing observed pressure sequence,
every target level whose pressure exceeds the first observed pressure receives
the first observed value, and every target level whose pressure is below the
last observed pressure receives the last observed value: the interpolator
clamps to the boundary observed values and never extrapolates. -/
theorem vertical_interpolate_clamps (v a l out : List ℝ)
    (hdec : v.Pairwise (· > ·))
    (hout : vertical_interpolate v a l = some out) (j : ℕ) (hj : j < l.length) :
    (v.getD 0 0 < l.getD j 0 → out.getD j 0 = a.getD 0 0) ∧
    (l.getD j 0 < v.getD (v.length - 1) 0 → out.getD j 0 = a.getD (a.length - 1) 0) := by
  obtain ⟨hne, hlen, hmap⟩ := vertical_interpolate_some v a l out hout
  have hjo : j < out.length := by rw [hmap]; simpa using hj
  have hval : out.getD j 0 = vi_point v a (l.getD j 0) := by
    rw [List.getD_eq_getElem out 0 hjo, List.getD_eq_getElem l 0 hj]
    subst hmap
    simp
  have hlast_le_head : v.getD (v.length - 1) 0 ≤ v.getD 0 0 :=
    pairwise_getD_anti v hdec 0 (v.length - 1) (Nat.zero_le _) (by omega)
  constructor
  · intro hhigh
    have hnotlow : ¬ l.getD j 0 < v.getD (v.length - 1) 0 :=
      not_lt.mpr (le_of_lt (lt_of_le_of_lt hlast_le_head hhigh))
    rw [hval, vi_point, apply_masks, if_neg hnotlow, if_pos hhigh]
  · intro hlow
    rw [hval, vi_point, apply_masks, if_pos hlow]

/-- Witness for C1 at a concrete clamped profile: the target level 5 lies above
the first observed pressure 4 and gets the first value 7; the target level 1/2
lies below the last observed pressure 1 and gets the last value 9. -/
theorem vertical_interpolate_clamps_witness :
    vertical_interpolate [4, 2, 1] [7, 8, 9] [5, 1 / 2] = some [7, 9] ∧
    ([7, 9] : List ℝ).getD 0 0 = ([7, 8, 9] : List ℝ).getD 0 0 ∧
    ([7, 9] : List ℝ).getD 1 0 = ([7, 8, 9] : List ℝ).getD 2 0 := by
  have hdec : ([4, 2, 1] : List ℝ).Pairwise (· > ·) := by
    simp only [List.pairwise_cons, List.mem_singleton, List.mem_cons]
    norm_num
  have hsome : vertical_interpolate [4, 2, 1] [7, 8, 9] [5, 1 / 2] = some [7, 9] := by
    norm_num [vertical_interpolate, vi_point, apply_masks]
  refine ⟨hsome, ?_, ?_⟩
  · have h := (vertical_interpolate_clamps [4, 2, 1] [7, 8, 9] [5, 1 / 2] [7, 9] hdec hsome 0
      (by norm_num)).1 (by norm_num)
    exact h
  · have h := (vertical_interpolate_clamps [4, 2, 1] [7, 8, 9] [5, 1 / 2] [7, 9] hdec hsome 1
      (by norm_num)).2 (by norm_num)
    exact h

/-- The two-point line through `(L1, A)` and `(L2, B)` is the same function
whichever endpoint anchors the segment formula. -/
theorem two_point_symm (x L1 L2 A B : ℝ) (h : L1 ≠ L2) :
    B + (x - L2) * (A - B) / (L1 - L2) = A + (x - L1) * (B - A) / (L2 - L1) := by
  have h1 : L1 - L2 ≠ 0 := sub_ne_zero.mpr h
  have h2 : L2 - L1 ≠ 0 := sub_ne_zero.mpr (Ne.symm h)
  field_simp
  ring

/-- When the target level lies inside the observed range, neither mask fires
and the interpolated value is the raw `np.interp` value in log space. -/
theorem vi_point_in_range (v a : List ℝ) (t : ℝ)
    (h1 : ¬ t < v.getD (v.length - 1) 0) (h2 : ¬ v.getD 0 0 < t) :
    vi_point v a t =
      np_interp (Real.log t) (((v.map Real.log).zip a).reverse) := by
  rw [vi_point, apply_masks, if_neg h1, if_neg h2]

/-- Querying `np.interp` at the log of observed pressure `i` returns the
observed value `i`. -/
theorem np_interp_log_node (v a : List ℝ) (hpos : ∀ x ∈ v, 0 < x)
    (hdec : v.Pairwise (· > ·)) (hlen : v.length = a.length)
    (i : ℕ) (hi : i < v.length) :
    np_interp (Real.log (v.getD i 0)) (((v.map Real.log).zip a).reverse) =
      a.getD i 0 := by
  have hpair := pts_pairwise v a hpos hdec
  have hplen := pts_length v a hlen
  have hk : v.length - 1 - i < (((v.map Real.log).zip a).reverse).length := by
    rw [hplen]; omega
  have hidx : v.length - 1 - (v.length - 1 - i) = i := by omega
  have hget : (((v.map Real.log).zip a).reverse)[v.length - 1 - i] =
      (Real.log (v.getD i 0), a.getD i 0) := by
    rw [pts_getElem v a hlen (v.length - 1 - i) hk, hidx]
  have hnode := np_interp_at_node (((v.map Real.log).zip a).reverse) hpair
    (v.length - 1 - i) hk
  rw [hget] at hnode
  simpa using hnode

/-- C2: for strictly decreasing positive observed pressures, the interpolator
performs linear interpolation in log-pressure space — a target level equal to
an observed level reproduces that level's value exactly, and a target level
bracketed by consecutive observed levels gets the log-linear segment value. -/
theorem vertical_interpolate_log_linear (v a l out : List ℝ)
    (hpos : ∀ x ∈ v, 0 < x) (hdec : v.Pairwise (· > ·))
    (hout : vertical_interpolate v a l = some out) (j : ℕ) (hj : j < l.length) :
    (∀ i, i < v.length → l.getD j 0 = v.getD i 0 → out.getD j 0 = a.getD i 0) ∧
    (∀ i, i + 1 < v.length → v.getD (i + 1) 0 ≤ l.getD j 0 → l.getD j 0 ≤ v.getD i 0 →
      out.getD j 0 = a.getD i 0 +
        (Real.log (l.getD j 0) - Real.log (v.getD i 0)) *
          (a.getD (i + 1) 0 - a.getD i 0) /
          (Real.log (v.getD (i + 1) 0) - Real.log (v.getD i 0))) := by
  obtain ⟨hne, hlen, hmap⟩ := vertical_interpolate_some v a l out hout
  have hjo : j < out.length := by rw [hmap]; simpa using hj
  have hval : out.getD j 0 = vi_point v a (l.getD j 0) := by
    rw [List.getD_eq_getElem out 0 hjo, List.getD_eq_getElem l 0 hj]
    subst hmap
    simp
  constructor
  · intro i hi heq
    have hmask1 : ¬ l.getD j 0 < v.getD (v.length - 1) 0 := by
      rw [heq]
      exact not_lt.mpr (pairwise_getD_anti v hdec i (v.length - 1) (by omega) (by omega))
    have hmask2 : ¬ v.getD 0 0 < l.getD j 0 := by
      rw [heq]
      exact not_lt.mpr (pairwise_getD_anti v hdec 0 i (Nat.zero_le _) hi)
    rw [hval, vi_point_in_range v a _ hmask1 hmask2, heq]
    exact np_interp_log_node v a hpos hdec hlen i hi
  · intro i hi1 hlo hhi
    have hi : i < v.length := by omega
    have hmask1 : ¬ l.getD j 0 < v.getD (v.length - 1) 0 :=
      not_lt.mpr (le_trans
        (pairwise_getD_anti v hdec (i + 1) (v.length - 1) (by omega) (by omega)) hlo)
    have hmask2 : ¬ v.getD 0 0 < l.getD j 0 :=
      not_lt.mpr (le_trans hhi (pairwise_getD_anti v hdec 0 i (Nat.zero_le _) hi))
    have hvi1_pos : 0 < v.getD (i + 1) 0 := by
      rw [List.getD_eq_getElem v 0 hi1]
      exact hpos _ (List.getElem_mem hi1)
    have hvi_lt : v.getD (i + 1) 0 < v.getD i 0 := by
      rw [List.getD_eq_getElem v 0 hi1, List.getD_eq_getElem v 0 hi]
      exact (List.pairwise_iff_getElem.mp hdec) i (i + 1) hi hi1 (by omega)
    have hlog_ne : Real.log (v.getD (i + 1) 0) ≠ Real.log (v.getD i 0) :=
      ne_of_lt (Real.log_lt_log hvi1_pos hvi_lt)
    rw [hval, vi_point_in_range v a _ hmask1 hmask2]
    rcases eq_or_lt_of_le hlo with hteq | htlt
    · rw [← hteq]
      rw [np_interp_log_node v a hpos hdec hlen (i + 1) hi1]
      have hne3 : Real.log (v.getD (i + 1) 0) - Real.log (v.getD i 0) ≠ 0 :=
        sub_ne_zero.mpr hlog_ne
      rw [mul_div_cancel_left₀ _ hne3]
      ring
    · -- strictly inside the segment: use the bracketing formula
      have hpair := pts_pairwise v a hpos hdec
      have hplen := pts_length v a hlen
      have hk2 : v.length - 2 - i + 1 < (((v.map Real.log).zip a).reverse).length := by
        rw [hplen]; omega
      have hidx1 : v.length - 1 - (v.length - 2 - i) = i + 1 := by omega
      have hidx2 : v.length - 1 - (v.length - 2 - i + 1) = i := by omega
      have hget1 : (((v.map Real.log).zip a).reverse)[v.length - 2 - i] =
          (Real.log (v.getD (i + 1) 0), a.getD (i + 1) 0) := by
        rw [pts_getElem v a hlen (v.length - 2 - i) (by omega), hidx1]
      have hget2 : (((v.map Real.log).zip a).reverse)[v.length - 2 - i + 1] =
          (Real.log (v.getD i 0), a.getD i 0) := by
        rw [pts_getElem v a hlen (v.length - 2 - i + 1) hk2, hidx2]
      have htpos : 0 < l.getD j 0 := lt_trans hvi1_pos htlt
      have hlt : ((((v.map Real.log).zip a).reverse)[v.length - 2 - i]).1 <
          Real.log (l.getD j 0) := by
        rw [hget1]
        exact Real.log_lt_log hvi1_pos htlt
      have hle : Real.log (l.getD j 0) ≤
          ((((v.map Real.log).zip a).reverse)[v.length - 2 - i + 1]).1 := by
        rw [hget2]
        exact Real.log_le_log htpos hhi
      have hseg := np_interp_on_segment (((v.map Real.log).zip a).reverse) hpair
        (Real.log (l.getD j 0)) (v.length - 2 - i) hk2 hlt hle
      rw [hseg, hget1, hget2]
      show (Real.log (v.getD (i + 1) 0), a.getD (i + 1) 0).2 +
          (Real.log (l.getD j 0) - (Real.log (v.getD (i + 1) 0), a.getD (i + 1) 0).1) *
            ((Real.log (v.getD i 0), a.getD i 0).2 -
              (Real.log (v.getD (i + 1) 0), a.getD (i + 1) 0).2) /
            ((Real.log (v.getD i 0), a.getD i 0).1 -
              (Real.log (v.getD (i + 1) 0), a.getD (i + 1) 0).1) = _
      exact two_point_symm (Real.log (l.getD j 0)) (Real.log (v.getD i 0))
        (Real.log (v.getD (i + 1) 0)) (a.getD i 0) (a.getD (i + 1) 0) (Ne.symm hlog_ne)

/-- Witness for C2: a target level equal to the observed pressure 1 hPa
reproduces that level's observed value 20. -/
theorem vertical_interpolate_log_linear_witness :
    vertical_interpolate [2, 1] [10, 20] [1] = some [20] ∧
    ([20] : List ℝ).getD 0 0 = ([10, 20] : List ℝ).getD 1 0 := by
  have hpos : ∀ x ∈ ([2, 1] : List ℝ), 0 < x := by
    intro x hx
    simp only [List.mem_cons, List.mem_singleton, List.not_mem_nil, or_false] at hx
    rcases hx with h | h <;> norm_num [h]
  have hdec : ([2, 1] : List ℝ).Pairwise (· > ·) := by
    simp only [List.pairwise_cons, List.mem_singleton]
    norm_num
  have hsome : vertical_interpolate [2, 1] [10, 20] [1] = some [20] := by
    norm_num [vertical_interpolate, vi_point, apply_masks, np_interp]
  exact ⟨hsome, (vertical_interpolate_log_linear [2, 1] [10, 20] [1] [20] hpos hdec hsome 0
    (by norm_num)).1 1 (by norm_num) (by norm_num)⟩

/-- Evaluation of the spec's worked example.  The target 1000 hPa is an
observed level and reproduces 20; the target 900 hPa lies between the
observed 1000 hPa and 850 hPa levels and is log-interpolated between their
values 20 and 15; the target 100 hPa is below the last observed pressure
500 hPa and clamps to -10. -/
theorem example_profile_eval :
    vertical_interpolate [1000, 850, 700, 500] [20, 15, 5, -10] [1000, 900, 100] =
      some [20,
        15 + (Real.log 900 - Real.log 850) * (20 - 15) / (Real.log 1000 - Real.log 850),
        -10] := by
  have l510 : Real.log 500 < Real.log 1000 := Real.log_lt_log (by norm_num) (by norm_num)
  have l710 : Real.log 700 < Real.log 1000 := Real.log_lt_log (by norm_num) (by norm_num)
  have l810 : Real.log 850 < Real.log 1000 := Real.log_lt_log (by norm_num) (by norm_num)
  have l59 : Real.log 500 < Real.log 900 := Real.log_lt_log (by norm_num) (by norm_num)
  have l79 : Real.log 700 < Real.log 900 := Real.log_lt_log (by norm_num) (by norm_num)
  have l89 : Real.log 850 < Real.log 900 := Real.log_lt_log (by norm_num) (by norm_num)
  have l910 : Real.log 900 ≤ Real.log 1000 := Real.log_le_log (by norm_num) (by norm_num)
  have hne : Real.log 1000 - Real.log 850 ≠ 0 := sub_ne_zero.mpr (ne_of_gt l810)
  have h1000 : vi_point [1000, 850, 700, 500] [20, 15, 5, -10] 1000 = 20 := by
    norm_num [vi_point, apply_masks, np_interp, lin_interp, not_le.mpr l510,
      not_le.mpr l710, not_le.mpr l810]
    field_simp
    norm_num
  have h900 : vi_point [1000, 850, 700, 500] [20, 15, 5, -10] 900 =
      15 + (Real.log 900 - Real.log 850) * (20 - 15) / (Real.log 1000 - Real.log 850) := by
    norm_num [vi_point, apply_masks, np_interp, lin_interp, not_le.mpr l59,
      not_le.mpr l79, not_le.mpr l89, l910]
  have h100 : vi_point [1000, 850, 700, 500] [20, 15, 5, -10] 100 = -10 := by
    norm_num [vi_point, apply_masks]
  rw [vertical_interpolate, if_neg (by norm_num)]
  simp only [List.map_cons, List.map_nil]
  rw [h1000, h900, h100]

/-- Bounds for the middle output of the worked example: it lies strictly
between 16.5 and 17 (numerically it is about 16.76), far from the spec's
claimed value of about 12.7. -/
theorem example_profile_mid_bounds :
    (33 : ℝ) / 2 <
      15 + (Real.log 900 - Real.log 850) * (20 - 15) / (Real.log 1000 - Real.log 850) ∧
    15 + (Real.log 900 - Real.log 850) * (20 - 15) / (Real.log 1000 - Real.log 850) < 17 := by
  have hA_eq : Real.log 900 - Real.log 850 = Real.log (18 / 17) := by
    rw [← Real.log_div (by norm_num) (by norm_num)]
    norm_num
  have hB_eq : Real.log 1000 - Real.log 850 = Real.log (20 / 17) := by
    rw [← Real.log_div (by norm_num) (by norm_num)]
    norm_num
  have hA_up : Real.log (18 / 17) ≤ 1 / 17 := by
    have h := Real.log_le_sub_one_of_pos (show (0 : ℝ) < 18 / 17 by norm_num)
    linarith
  have hA_low : (1 : ℝ) / 18 ≤ Real.log (18 / 17) := by
    have h := Real.log_le_sub_one_of_pos (show (0 : ℝ) < 17 / 18 by norm_num)
    have h2 : Real.log (17 / 18) = -Real.log (18 / 17) := by
      rw [show (17 / 18 : ℝ) = (18 / 17)⁻¹ by norm_num, Real.log_inv]
    linarith
  have hB_up : Real.log (20 / 17) ≤ 3 / 17 := by
    have h := Real.log_le_sub_one_of_pos (show (0 : ℝ) < 20 / 17 by norm_num)
    linarith
  have hB_low : (3 : ℝ) / 20 ≤ Real.log (20 / 17) := by
    have h := Real.log_le_sub_one_of_pos (show (0 : ℝ) < 17 / 20 by norm_num)
    have h2 : Real.log (17 / 20) = -Real.log (20 / 17) := by
      rw [show (17 / 20 : ℝ) = (20 / 17)⁻¹ by norm_num, Real.log_inv]
    linarith
  have hBpos : (0 : ℝ) < Real.log (20 / 17) := by linarith
  rw [hA_eq, hB_eq]
  constructor
  · have h5 : (3 : ℝ) / 2 < Real.log (18 / 17) * (20 - 15) / Real.log (20 / 17) := by
      rw [lt_div_iff₀ hBpos]
      nlinarith
    linarith
  · have h5 : Real.log (18 / 17) * (20 - 15) / Real.log (20 / 17) < 2 := by
      rw [div_lt_iff₀ hBpos]
      nlinarith
    linarith

/-- C5 counterexample: on the spec's worked example the middle output (target
900 hPa) is strictly greater than 16.5, not approximately 12.7 — 900 hPa lies
between the observed 1000 hPa and 850 hPa levels, so the code interpolates
between 20 and 15, not between 15 and 5. -/
theorem example_profile_cex :
    vertical_interpolate [1000, 850, 700, 500] [20, 15, 5, -10] [1000, 900, 100] =
      some [20,
        15 + (Real.log 900 - Real.log 850) * (20 - 15) / (Real.log 1000 - Real.log 850),
        -10] ∧
    (33 : ℝ) / 2 <
      15 + (Real.log 900 - Real.log 850) * (20 - 15) / (Real.log 1000 - Real.log 850) :=
  ⟨example_profile_eval, example_profile_mid_bounds.1⟩

/-- C5 amended: the worked example yields `[20, m, -10]` where the middle
value `m` is the log-linear interpolation between 20 (at 1000 hPa) and 15 (at
850 hPa) — since 900 hPa lies between 1000 and 850 — and satisfies
16.5 < m < 17; the first output reproduces the observed 20 and the last is
the clamp-high value -10. -/
theorem example_profile_amended :
    vertical_interpolate [1000, 850, 700, 500] [20, 15, 5, -10] [1000, 900, 100] =
      some [20,
        15 + (Real.log 900 - Real.log 850) * (20 - 15) / (Real.log 1000 - Real.log 850),
        -10] ∧
    (33 : ℝ) / 2 <
      15 + (Real.log 900 - Real.log 850) * (20 - 15) / (Real.log 1000 - Real.log 850) ∧
    15 + (Real.log 900 - Real.log 850) * (20 - 15) / (Real.log 1000 - Real.log 850) < 17 :=
  ⟨example_profile_eval, example_profile_mid_bounds.1, example_profile_mid_bounds.2⟩

/-- C7 counterexample: a one-level profile does not fail fast — the
interpolator happily returns the single observed value at every target level
(here `[5, 5]`), because `np.interp` with one sample point returns that
sample's value everywhere and both masks also write that value. -/
theorem single_level_no_error_cex :
    vertical_interpolate [1] [5] [2, 1] = some [5, 5] := by
  norm_num [vertical_interpolate, vi_point, apply_masks, np_interp]

/-- C7 amended: the reference implementation does not validate the two-level
precondition.  With exactly one observed level it returns the single observed
value at every target level; only an empty profile makes the underlying
`np.interp` call raise (modelled as `none`). -/
theorem single_level_behavior :
    (∀ (p y : ℝ) (levels : List ℝ),
      vertical_interpolate [p] [y] levels = some (levels.map fun _ => y)) ∧
    (∀ (a levels : List ℝ), vertical_interpolate [] a levels = none) := by
  constructor
  · intro p y levels
    rw [vertical_interpolate, if_neg (by norm_num)]
    have hpt : ∀ lv : ℝ, vi_point [p] [y] lv = y := by
      intro lv
      rw [vi_point, apply_masks]
      split
      · simp
      · split
        · simp
        · simp [np_interp]
    rw [funext hpt]
  · intro a levels
    rw [vertical_interpolate, if_pos (by norm_num)]

/-- For a non-pressure variable, the loop body is exactly a
`vertical_interpolate` call, which succeeds on a valid station. -/
theorem station_column_interp (levels : List ℝ) (k : VarKey)
    (hk : k ≠ VarKey.pressure) (st : Station) (hv : st.valid) :
    station_column levels k st =
      some (levels.map (vi_point st.pressure (st.col k))) := by
  have hcall : station_column levels k st =
      vertical_interpolate st.pressure (st.col k) levels := by
    cases k
    · exact absurd rfl hk
    all_goals rfl
  rw [hcall, vertical_interpolate, if_neg]
  push_neg
  exact ⟨fun h => hv.1 (List.length_eq_zero.mp h), (hv.2 k).symm⟩

/-- `optRows` succeeds with the mapped rows when every station's column
computation succeeds. -/
theorem optRows_some (f : Station → Option (List ℝ)) (g : Station → List ℝ) :
    ∀ (sts : List Station), (∀ st ∈ sts, f st = some (g st)) →
      optRows f sts = some (sts.map g)
  | [], _ => rfl
  | st :: rest, h => by
      rw [optRows, h st (by simp),
        optRows_some f g rest (fun x hx => h x (by simp [hx]))]
      rfl

/-- The pressure rows of `tmp_grid` are the vertical grid itself, one copy
per station — no interpolation is involved. -/
theorem tmp_rows_pressure (levels : List ℝ) (sts : List Station) :
    tmp_rows levels sts VarKey.pressure = some (sts.map fun _ => levels) :=
  optRows_some _ _ sts (fun _ _ => rfl)

/-- The rows of every non-pressure variable are the vertical interpolator's
output for each station. -/
theorem tmp_rows_interp (levels : List ℝ) (sts : List Station) (k : VarKey)
    (hk : k ≠ VarKey.pressure) (hv : ∀ st ∈ sts, st.valid) :
    tmp_rows levels sts k =
      some (sts.map fun st => levels.map (vi_point st.pressure (st.col k))) :=
  optRows_some _ _ sts (fun st hst => station_column_interp levels k hk st (hv st hst))

/-- On valid stations the whole `tmp_grid` computation succeeds, with the
pressure rows equal to the grid and the other rows interpolated. -/
theorem tmp_grid_some (levels : List ℝ) (sts : List Station)
    (hv : ∀ st ∈ sts, st.valid) :
    ∃ tg, tmp_grid levels sts = some tg ∧
      tg VarKey.pressure = sts.map (fun _ => levels) ∧
      ∀ k, k ≠ VarKey.pressure →
        tg k = sts.map fun st => levels.map (vi_point st.pressure (st.col k)) := by
  rw [tmp_grid, tmp_rows_pressure,
    tmp_rows_interp levels sts VarKey.temperature (by intro h; cases h) hv,
    tmp_rows_interp levels sts VarKey.dewpoint (by intro h; cases h) hv,
    tmp_rows_interp levels sts VarKey.u_wind (by intro h; cases h) hv,
    tmp_rows_interp levels sts VarKey.v_wind (by intro h; cases h) hv]
  refine ⟨_, rfl, rfl, ?_⟩
  intro k hk
  cases k
  · exact absurd rfl hk
  all_goals rfl

/-- The distance array of the assembled cross-section. -/
theorem assemble_obs_distance (gd : GridDataFun) (lon0 lat0 : ℝ)
    (levels : List ℝ) (sts : List Station) (tg : VarKey → List (List ℝ)) :
    (assemble_cross_section gd lon0 lat0 levels sts tg).obs_distance =
      sts.map fun st => great_circle_dist lon0 lat0 st.longitude st.latitude := rfl

/-- Shape of the assembled 2D variable grids: always 100 rows (the hardcoded
`np.linspace` sample count) of one entry per vertical level. -/
theorem assemble_grid_shape (gd : GridDataFun) (lon0 lat0 : ℝ)
    (levels : List ℝ) (sts : List Station) (tg : VarKey → List (List ℝ)) (k : VarKey) :
    ((assemble_cross_section gd lon0 lat0 levels sts tg).grid_data k).length = 100 ∧
    ∀ row ∈ (assemble_cross_section gd lon0 lat0 levels sts tg).grid_data k,
      row.length = levels.length := by
  constructor
  · simp only [assemble_cross_section]
    rw [List.length_map, linspace, List.length_map, List.length_range]
  · intro row hrow
    simp only [assemble_cross_section, List.mem_map] at hrow
    obtain ⟨xi, -, rfl⟩ := hrow
    simp

/-- On a nonempty station list, a nonzero step and valid stations, the
builder succeeds; its distance array is the geodesic distance from the first
station to each station in supplied order, and every variable's 2D grid is
100 rows (the hardcoded `np.linspace` count) of one column per vertical
level. -/
theorem radisonde_cross_section_fields (gd : GridDataFun) (s0 : String)
    (rest : List String) (data : String → Station) (start endv : ℤ) (step : ℕ)
    (hstep : step ≠ 0) (hv : ∀ s ∈ s0 :: rest, (data s).valid) :
    ∃ cs, radisonde_cross_section gd (s0 :: rest) data start endv step = some cs ∧
      cs.obs_distance = (s0 :: rest).map (fun s =>
        great_circle_dist (data s0).longitude (data s0).latitude
          (data s).longitude (data s).latitude) ∧
      (∀ k, (cs.grid_data k).length = 100 ∧
        ∀ row ∈ cs.grid_data k, row.length = (arangeDown start (endv - 1) step).length) := by
  obtain ⟨tg, htg, -, -⟩ := tmp_grid_some
    ((arangeDown start (endv - 1) step).map (fun z : ℤ => (z : ℝ)))
    ((s0 :: rest).map data)
    (by
      intro st hst
      obtain ⟨s, hs, rfl⟩ := List.mem_map.mp hst
      exact hv s hs)
  rw [radisonde_cross_section, if_neg hstep, htg]
  refine ⟨_, rfl, ?_, ?_⟩
  · rw [assemble_obs_distance, List.map_map]
    rfl
  · intro k
    have h := assemble_grid_shape gd (data s0).longitude (data s0).latitude
      ((arangeDown start (endv - 1) step).map (fun z : ℤ => (z : ℝ)))
      ((s0 :: rest).map data) tg k
    refine ⟨h.1, ?_⟩
    intro row hrow
    rw [h.2 row hrow]
    simp

/-- The great-circle distance from a point to itself is 0: the spherical law
of cosines argument collapses to `arccos 1`. -/
theorem great_circle_dist_self (lon lat : ℝ) :
    great_circle_dist lon lat lon lat = 0 := by
  unfold great_circle_dist
  have h : Real.sin (deg2rad lat) * Real.sin (deg2rad lat) +
      Real.cos (deg2rad lat) * Real.cos (deg2rad lat) *
        Real.cos (deg2rad lon - deg2rad lon) = 1 := by
    rw [sub_self, Real.cos_zero, mul_one, ← Real.sin_sq_add_cos_sq (deg2rad lat)]
    ring
  rw [h, Real.arccos_one, mul_zero]

/-- The great-circle distance is symmetric in its two endpoints. -/
theorem great_circle_dist_comm (lon1 lat1 lon2 lat2 : ℝ) :
    great_circle_dist lon1 lat1 lon2 lat2 = great_circle_dist lon2 lat2 lon1 lat1 := by
  unfold great_circle_dist
  congr 1
  congr 1
  rw [show deg2rad lon1 - deg2rad lon2 = -(deg2rad lon2 - deg2rad lon1) by ring,
    Real.cos_neg]
  ring

/-- Distance along the equator: for a longitude difference between 0 and 180
degrees the central angle is exactly the longitude difference in radians. -/
theorem great_circle_dist_equator (lon : ℝ) (h0 : 0 ≤ lon) (h180 : lon ≤ 180) :
    great_circle_dist 0 0 lon 0 = earth_radius * deg2rad lon := by
  unfold great_circle_dist
  have h1 : Real.sin (deg2rad 0) * Real.sin (deg2rad 0) +
      Real.cos (deg2rad 0) * Real.cos (deg2rad 0) *
        Real.cos (deg2rad lon - deg2rad 0) = Real.cos (deg2rad lon) := by
    have hz : deg2rad 0 = 0 := by
      rw [deg2rad, zero_mul]
    rw [hz, Real.sin_zero, Real.cos_zero, sub_zero]
    ring
  have hrad0 : 0 ≤ deg2rad lon := by
    rw [deg2rad]
    have := Real.pi_pos
    positivity
  have hradpi : deg2rad lon ≤ Real.pi := by
    rw [deg2rad]
    nlinarith [Real.pi_pos]
  rw [h1, Real.arccos_cos hrad0 hradpi]

/-- C8: the great-circle distance used by the cross-section builder is 0 for
two stations at identical coordinates, and is symmetric in its two
stations. -/
theorem great_circle_dist_props :
    (∀ lon lat : ℝ, great_circle_dist lon lat lon lat = 0) ∧
    (∀ lon1 lat1 lon2 lat2 : ℝ,
      great_circle_dist lon1 lat1 lon2 lat2 = great_circle_dist lon2 lat2 lon1 lat1) :=
  ⟨great_circle_dist_self, great_circle_dist_comm⟩

/-- C4 counterexample: a doubling-back path (equatorial stations at
longitudes 0, 90, 45) gives the distance array `[0, R*pi/2, R*pi/4]`, whose
last entry is strictly smaller than its second — the builder does not produce
a non-decreasing distance array for every station order. -/
theorem obs_distance_not_monotone_cex :
    ((radisonde_cross_section (fun _ _ => 0) ["A", "B", "C"] dataABC 1000 1000 10).map
        CrossSection.obs_distance).getD [] =
      [0, earth_radius * (Real.pi / 2), earth_radius * (Real.pi / 4)] ∧
    earth_radius * (Real.pi / 4) < earth_radius * (Real.pi / 2) := by
  have hv : ∀ s ∈ ["A", "B", "C"], (dataABC s).valid := by
    intro s hs
    have hval : ∀ lon : ℝ, (stnAt lon).valid := by
      intro lon
      exact ⟨by simp [stnAt], fun k => by cases k <;> rfl⟩
    rw [dataABC]
    split
    · exact hval 90
    · split
      · exact hval 45
      · exact hval 0
  obtain ⟨cs, hcs, hdist, -⟩ := radisonde_cross_section_fields (fun _ _ => 0) "A" ["B", "C"]
    dataABC 1000 1000 10 (by norm_num) hv
  constructor
  · rw [hcs]
    simp only [Option.map_some', Option.getD_some]
    rw [hdist]
    have hAB : ("A" : String) ≠ "B" := by decide
    have hAC : ("A" : String) ≠ "C" := by decide
    have hCB : ("C" : String) ≠ "B" := by decide
    have hA : dataABC "A" = stnAt 0 := by
      simp only [dataABC]
      rw [if_neg hAB, if_neg hAC]
    have hB : dataABC "B" = stnAt 90 := by
      simp only [dataABC]
      simp
    have hC : dataABC "C" = stnAt 45 := by
      simp only [dataABC]
      rw [if_neg hCB]
      simp
    simp only [List.map_cons, List.map_nil, hA, hB, hC]
    rw [show (stnAt 0).longitude = 0 from rfl, show (stnAt 0).latitude = 0 from rfl,
      show (stnAt 90).longitude = 90 from rfl, show (stnAt 90).latitude = 0 from rfl,
      show (stnAt 45).longitude = 45 from rfl, show (stnAt 45).latitude = 0 from rfl]
    rw [great_circle_dist_self, great_circle_dist_equator 90 (by norm_num) (by norm_num),
      great_circle_dist_equator 45 (by norm_num) (by norm_num)]
    rw [show deg2rad 90 = Real.pi / 2 by rw [deg2rad]; ring,
      show deg2rad 45 = Real.pi / 4 by rw [deg2rad]; ring]
  · have hpi := Real.pi_pos
    rw [earth_radius]
    nlinarith

/-- C4 amended: the first entry of the distance array is always 0, the i-th
entry is exactly the great-circle distance from the first station to the i-th
supplied station, and the array is non-decreasing precisely when the stations
are supplied in non-decreasing order of distance from the first station —
which the builder does not enforce. -/
theorem obs_distance_spec (gd : GridDataFun) (s0 : String) (rest : List String)
    (data : String → Station) (start endv : ℤ) (step : ℕ)
    (hstep : step ≠ 0) (hv : ∀ s ∈ s0 :: rest, (data s).valid) :
    ∃ cs, radisonde_cross_section gd (s0 :: rest) data start endv step = some cs ∧
      cs.obs_distance.getD 0 0 = 0 ∧
      cs.obs_distance = (s0 :: rest).map (fun s =>
        great_circle_dist (data s0).longitude (data s0).latitude
          (data s).longitude (data s).latitude) ∧
      (((s0 :: rest).map (fun s =>
          great_circle_dist (data s0).longitude (data s0).latitude
            (data s).longitude (data s).latitude)).Pairwise (· ≤ ·) →
        cs.obs_distance.Pairwise (· ≤ ·)) := by
  obtain ⟨cs, hcs, hdist, -⟩ :=
    radisonde_cross_section_fields gd s0 rest data start endv step hstep hv
  refine ⟨cs, hcs, ?_, hdist, ?_⟩
  · rw [hdist]
    simp only [List.map_cons, List.getD_cons_zero]
    exact great_circle_dist_self _ _
  · intro h
    rw [hdist]
    exact h

/-- Witness for C4's amended statement on a concrete two-station input. -/
theorem obs_distance_spec_witness :
    ∃ cs, radisonde_cross_section (fun _ _ => 0) ["A", "B"] (fun _ => stnAt 0)
        1000 100 10 = some cs ∧ cs.obs_distance.getD 0 0 = 0 := by
  obtain ⟨cs, hcs, hzero, -, -⟩ := obs_distance_spec (fun _ _ => 0) "A" ["B"]
    (fun _ => stnAt 0) 1000 100 10 (by norm_num)
    (fun s _ => ⟨by simp [stnAt], fun k => by cases k <;> rfl⟩)
  exact ⟨cs, hcs, hzero⟩

/-- C6: for at least two stations and any grid configuration, every
variable's 2D grid is exactly 100 horizontal sample points by the number of
vertical grid levels, independent of the number of stations. -/
theorem grid_shape_100 (gd : GridDataFun) (stns : List String)
    (data : String → Station) (start endv : ℤ) (step : ℕ)
    (h2 : 2 ≤ stns.length) (hstep : step ≠ 0) (hv : ∀ s ∈ stns, (data s).valid) :
    ∃ cs, radisonde_cross_section gd stns data start endv step = some cs ∧
      ∀ k, (cs.grid_data k).length = 100 ∧
        ∀ row ∈ cs.grid_data k, row.length = (arangeDown start (endv - 1) step).length := by
  obtain ⟨s0, rest, rfl⟩ : ∃ a l, stns = a :: l := by
    cases stns with
    | nil => simp at h2
    | cons a l => exact ⟨a, l, rfl⟩
  obtain ⟨cs, hcs, -, hshape⟩ :=
    radisonde_cross_section_fields gd s0 rest data start endv step hstep hv
  exact ⟨cs, hcs, hshape⟩

/-- Witness for C6 on a concrete two-station input with the default grid. -/
theorem grid_shape_100_witness :
    ∃ cs, radisonde_cross_section (fun _ _ => 0) ["A", "B"] (fun _ => stnAt 0)
        1000 100 10 = some cs ∧ (cs.grid_data VarKey.temperature).length = 100 := by
  obtain ⟨cs, hcs, hsh⟩ := grid_shape_100 (fun _ _ => 0) ["A", "B"] (fun _ => stnAt 0)
    1000 100 10 (by norm_num) (by norm_num)
    (fun s _ => ⟨by simp [stnAt], fun k => by cases k <;> rfl⟩)
  exact ⟨cs, hcs, (hsh VarKey.temperature).1⟩

/-- C3 counterexample: for a station whose surface report is at 850 hPa, the
builder's pressure column at the 1000 hPa grid level is 1000 (the grid value,
assigned directly), whereas applying the vertical interpolator to the
station's pressure samples would clamp to 850. -/
theorem pressure_column_not_interpolated_cex :
    tmp_rows [1000] [stShallow] VarKey.pressure = some [[1000]] ∧
    vertical_interpolate stShallow.pressure (stShallow.col VarKey.pressure) [1000] =
      some [850] ∧
    ([1000] : List ℝ) ≠ [850] := by
  refine ⟨?_, ?_, by norm_num⟩
  · rw [tmp_rows_pressure]
    rfl
  · norm_num [stShallow, Station.col, vertical_interpolate, vi_point, apply_masks]

/-- C3 amended: the pressure column is assigned the standard vertical grid
levels directly, without invoking the interpolator; temperature, dewpoint,
u-wind and v-wind columns are produced by the vertical interpolator. -/
theorem pressure_column_assigned_grid (levels : List ℝ) (sts : List Station)
    (hv : ∀ st ∈ sts, st.valid) :
    tmp_rows levels sts VarKey.pressure = some (sts.map fun _ => levels) ∧
    ∀ k, k ≠ VarKey.pressure →
      tmp_rows levels sts k =
        some (sts.map fun st => levels.map (vi_point st.pressure (st.col k))) :=
  ⟨tmp_rows_pressure levels sts, fun k hk => tmp_rows_interp levels sts k hk hv⟩

/-- Witness for C3's amended statement: one station, one 3 hPa grid level
above its 2 hPa surface — the pressure column is the grid value 3 while the
temperature column is the interpolated (clamped) value 0. -/
theorem pressure_column_assigned_grid_witness :
    tmp_rows [3] [stnAt 0] VarKey.pressure = some [[3]] ∧
    tmp_rows [3] [stnAt 0] VarKey.temperature = some [[0]] := by
  have hv : ∀ st ∈ [stnAt 0], st.valid := by
    intro st hst
    simp only [List.mem_singleton] at hst
    subst hst
    exact ⟨by simp [stnAt], fun k => by cases k <;> rfl⟩
  have h := pressure_column_assigned_grid [3] [stnAt 0] hv
  constructor
  · simpa using h.1
  · have h2 := h.2 VarKey.temperature (by intro hh; cases hh)
    rw [h2]
    norm_num [stnAt, Station.col, vi_point, apply_masks]

/-- C9: the cross-section builder is a pure function of its inputs — two
invocations on equal inputs (same interpolant, station list, station data and
grid parameters) return equal outputs. -/
theorem cross_section_deterministic (gd : GridDataFun) (stns1 stns2 : List String)
    (data1 data2 : String → Station) (start endv : ℤ) (step : ℕ)
    (hs : stns1 = stns2) (hd : ∀ s, data1 s = data2 s) :
    radisonde_cross_section gd stns1 data1 start endv step =
      radisonde_cross_section gd stns2 data2 start endv step := by
  subst hs
  rw [funext hd]

/-- Witness for C9 at a concrete input. -/
theorem cross_section_deterministic_witness :
    radisonde_cross_section (fun _ _ => 0) ["A"] (fun _ => stnAt 0) 1000 100 10 =
      radisonde_cross_section (fun _ _ => 0) ["A"] (fun _ => stnAt 0) 1000 100 10 :=
  cross_section_deterministic (fun _ _ => 0) ["A"] ["A"] (fun _ => stnAt 0)
    (fun _ => stnAt 0) 1000 100 10 rfl (fun _ => rfl)

/-- The state-passing builder succeeds under the same conditions as the
builder itself. -/
theorem radisonde_cross_section_run_some (gd : GridDataFun) (s : RCState)
    (s0 : String) (rest : List String) (hstns : s.stns = s0 :: rest)
    (start endv : ℤ) (step : ℕ) (hstep : step ≠ 0)
    (hv : ∀ x ∈ s0 :: rest, (s.data x).valid) :
    ∃ s' cs, radisonde_cross_section_run gd s start endv step = some (s', cs) := by
  obtain ⟨tg, htg, -, -⟩ := tmp_grid_some
    ((arangeDown start (endv - 1) step).map (fun z : ℤ => (z : ℝ)))
    ((s0 :: rest).map s.data)
    (by
      intro st hst
      obtain ⟨x, hx, rfl⟩ := List.mem_map.mp hst
      exact hv x hx)
  simp only [radisonde_cross_section_run, hstns]
  rw [if_neg hstep, htg]
  exact ⟨_, _, rfl⟩

/-- C10: neither function mutates its inputs — in the state-passing embedding
the final state's input fields equal the initial state's: the three arrays
passed to `vertical_interpolate`, and the station list and station-data
mapping passed to the cross-section builder, are unchanged by a successful
run. -/
theorem no_input_mutation :
    (∀ (s s' : VIState) (out : List ℝ),
      vertical_interpolate_run s = some (s', out) →
      s'.vcoord_data = s.vcoord_data ∧ s'.interp_var = s.interp_var ∧
        s'.interp_levels = s.interp_levels) ∧
    (∀ (gd : GridDataFun) (s s' : RCState) (cs : CrossSection)
      (start endv : ℤ) (step : ℕ),
      radisonde_cross_section_run gd s start endv step = some (s', cs) →
      s'.stns = s.stns ∧ s'.data = s.data) := by
  constructor
  · intro s s' out h
    simp only [vertical_interpolate_run] at h
    by_cases hc : s.vcoord_data.length = 0 ∨ s.vcoord_data.length ≠ s.interp_var.length
    · rw [if_pos hc] at h
      exact Option.noConfusion h
    · rw [if_neg hc] at h
      simp only [Option.some.injEq, Prod.mk.injEq] at h
      obtain ⟨h1, -⟩ := h
      subst h1
      exact ⟨rfl, rfl, rfl⟩
  · intro gd s s' cs start endv step h
    cases hstns : s.stns with
    | nil =>
        simp only [radisonde_cross_section_run, hstns] at h
        exact Option.noConfusion h
    | cons s0 rest =>
        simp only [radisonde_cross_section_run, hstns] at h
        by_cases hstep : step = 0
        · rw [if_pos hstep] at h
          exact Option.noConfusion h
        · rw [if_neg hstep] at h
          obtain ⟨tg, -, heq⟩ := Option.map_eq_some'.mp h
          injection heq with h1 h2
          subst h1
          exact ⟨rfl, rfl⟩

/-- Witness for C10: a concrete one-level interpolation run and a concrete
one-station builder run, both leaving their input fields unchanged. -/
theorem no_input_mutation_witness :
    (vertical_interpolate_run (VIState.mk [1] [5] [] [] [] []) =
        some (VIState.mk [1] [5] [] [0] [] [], []) ∧
      (VIState.mk [1] [5] ([] : List ℝ) [0] [] []).vcoord_data =
        (VIState.mk [1] [5] ([] : List ℝ) [] [] []).vcoord_data) ∧
    (∃ s' cs, radisonde_cross_section_run (fun _ _ => 0)
        (RCState.mk ["A"] (fun _ => stnAt 0) [] [] [] []) 1000 100 10 =
          some (s', cs) ∧
      s'.data = (RCState.mk ["A"] (fun _ => stnAt 0) [] [] [] []).data) := by
  have hrun : vertical_interpolate_run (VIState.mk [1] [5] [] [] [] []) =
      some (VIState.mk [1] [5] [] [0] [] [], []) := by
    norm_num [vertical_interpolate_run]
  constructor
  · exact ⟨hrun, (no_input_mutation.1 _ _ _ hrun).1⟩
  · obtain ⟨s', cs, hrc⟩ := radisonde_cross_section_run_some (fun _ _ => 0)
      (RCState.mk ["A"] (fun _ => stnAt 0) [] [] [] []) "A" [] rfl 1000 100 10
      (by norm_num) (fun x _ => ⟨by simp [stnAt], fun k => by cases k <;> rfl⟩)
    exact ⟨s', cs, hrc, (no_input_mutation.2 _ _ _ _ _ _ _ hrc).2⟩

end
